import Mathlib

/-!
Shallow embedding of the emitter/bridge layer of this repository:
`chainlit/emitter.py` (the `ChainlitEmitter` class and `get_emitter`) and
`chainlit/lc/agent.py` (`run_langchain_agent`).

Modelling conventions:
- A Python `Session` is a string-keyed mapping of capabilities; we embed it
  as an association list.  `property_name not in self.session` becomes
  `lookup` returning `none`.
- A raised Python exception becomes an `Except.error` carrying a `PyError`.
- The effect of calling the session's `emit` capability is recorded as an
  `Emitted` value (event name plus payload), and inside `send_ask_user` the
  whole exchange is recorded as a trace of `Ev` events in program order.
- `send_ask_user` is driven by the environment's behaviour: whether
  `ask_user` returns a response dict or raises the socketio `TimeoutError`,
  and whether `client.create_message` raises when it is called.
- `inspect.stack()` returns frames innermost-first (index 0 is the current
  frame); `get_emitter` therefore takes the stack as a list ordered from the
  innermost (nearest) frame to the outermost one.  Python truthiness of the
  marker value is embedded by `PyVal.truthy`.
-/

/-- A capability value stored in a session mapping (an `emit` function,
an `ask_user` function, a persistence client, ...).  Its identity is all
that matters to the control flow, so it is embedded as a tagged id. -/
inductive Capability where
  | cap (id : Nat)
deriving DecidableEq

/-- A session is a string-keyed mapping of capabilities
(`chainlit/session.py` is not needed beyond the mapping interface that
`emitter.py` uses: `in` and `[]`). -/
abbrev Session := List (String × Capability)

/-- The Python exceptions that the embedded code can raise:
`ValueError` from `_get_session_property` (carrying the missing property
name), `socketio.exceptions.TimeoutError` from `ask_user`, an error raised
by `client.create_message`, and `IndexError` from `list[0]` on an empty
list. -/
inductive PyError where
  | valueError (property_name : String)
  | timeoutError
  | persistenceError
  | indexError
deriving DecidableEq

/-- `ChainlitEmitter`: holds the user session (`self.session = session`). -/
structure ChainlitEmitter where
  session : Session
deriving DecidableEq

/-- `ChainlitEmitter._get_session_property`: returns `session[property_name]`
when present; when absent, raises `ValueError` if `raise_error` else
returns `None` (embedded as `.ok none`). `hasattr(self, "session")` is
always true after `__init__`, so only the membership test remains. -/
def ChainlitEmitter.getSessionProperty (e : ChainlitEmitter)
    (property_name : String) (raise_error : Bool) :
    Except PyError (Option Capability) :=
  match e.session.lookup property_name with
  | none =>
    if raise_error then .error (.valueError property_name) else .ok none
  | some c => .ok (some c)

/-- The `emit` property: `_get_session_property("emit")` with the default
`raise_error=True`. -/
def ChainlitEmitter.emit (e : ChainlitEmitter) :
    Except PyError (Option Capability) :=
  e.getSessionProperty "emit" true

/-- The `ask_user` property: `_get_session_property("ask_user")` with the
default `raise_error=True`. -/
def ChainlitEmitter.ask_user (e : ChainlitEmitter) :
    Except PyError (Option Capability) :=
  e.getSessionProperty "ask_user" true

/-- The `client` property: `_get_session_property("client", raise_error=False)`. -/
def ChainlitEmitter.client (e : ChainlitEmitter) :
    Except PyError (Option Capability) :=
  e.getSessionProperty "client" false

/-- Payload of a one-way `emit` call. -/
inductive EmitPayload where
  | dict (d : List (String × String))
  | emptyDict
  | intPayload (n : Int)
  | tokenPayload (id : String) (token : String)
deriving DecidableEq

/-- One `emit(event, payload)` call: the wire event name and its payload. -/
structure Emitted where
  event : String
  payload : EmitPayload
deriving DecidableEq

/-- `send_message`: `return self.emit("new_message", msg_dict)`. -/
def ChainlitEmitter.send_message (e : ChainlitEmitter)
    (msg_dict : List (String × String)) : Except PyError Emitted := do
  let _ ← e.emit
  return ⟨"new_message", .dict msg_dict⟩

/-- `update_message`: `return self.emit("update_message", msg_dict)`. -/
def ChainlitEmitter.update_message (e : ChainlitEmitter)
    (msg_dict : List (String × String)) : Except PyError Emitted := do
  let _ ← e.emit
  return ⟨"update_message", .dict msg_dict⟩

/-- `delete_message`: `return self.emit("delete_message", msg_dict)`. -/
def ChainlitEmitter.delete_message (e : ChainlitEmitter)
    (msg_dict : List (String × String)) : Except PyError Emitted := do
  let _ ← e.emit
  return ⟨"delete_message", .dict msg_dict⟩

/-- `send_ask_timeout`: `return self.emit("ask_timeout", {})`. -/
def ChainlitEmitter.send_ask_timeout (e : ChainlitEmitter) :
    Except PyError Emitted := do
  let _ ← e.emit
  return ⟨"ask_timeout", .emptyDict⟩

/-- `clear_ask`: `return self.emit("clear_ask", {})`. -/
def ChainlitEmitter.clear_ask (e : ChainlitEmitter) :
    Except PyError Emitted := do
  let _ ← e.emit
  return ⟨"clear_ask", .emptyDict⟩

/-- `update_token_count`: `return self.emit("token_usage", count)`. -/
def ChainlitEmitter.update_token_count (e : ChainlitEmitter) (count : Int) :
    Except PyError Emitted := do
  let _ ← e.emit
  return ⟨"token_usage", .intPayload count⟩

/-- `task_start`: `return self.emit("task_start", {})`. -/
def ChainlitEmitter.task_start (e : ChainlitEmitter) :
    Except PyError Emitted := do
  let _ ← e.emit
  return ⟨"task_start", .emptyDict⟩

/-- `task_end`: `return self.emit("task_end", {})`. -/
def ChainlitEmitter.task_end (e : ChainlitEmitter) :
    Except PyError Emitted := do
  let _ ← e.emit
  return ⟨"task_end", .emptyDict⟩

/-- `stream_start`: `return self.emit("stream_start", msg_dict)`. -/
def ChainlitEmitter.stream_start (e : ChainlitEmitter)
    (msg_dict : List (String × String)) : Except PyError Emitted := do
  let _ ← e.emit
  return ⟨"stream_start", .dict msg_dict⟩

/-- `send_token`: `return self.emit("stream_token", {"id": id, "token": token})`. -/
def ChainlitEmitter.send_token (e : ChainlitEmitter) (id : String)
    (token : String) : Except PyError Emitted := do
  let _ ← e.emit
  return ⟨"stream_token", .tokenPayload id token⟩

/-- `spec.type` in `AskSpec`: the tag is `"text"` or `"file"`. -/
inductive SpecTy where
  | text
  | file
deriving DecidableEq

/-- `AskSpec`: type tag and timeout (the other serialized fields do not
influence the embedded control flow). -/
structure AskSpec where
  type : SpecTy
  timeout : Nat
deriving DecidableEq

/-- The response dict that `ask_user` resolves with: the fields read by
`send_ask_user` (`res["author"]`, `res["content"]`). -/
structure AskResponse where
  author : String
  content : String
deriving DecidableEq

/-- Behaviour of the session's `ask_user` capability on one exchange:
either it returns a response (`none` embeds a Python-falsy response such
as `None`) or it raises the socketio `TimeoutError`. -/
inductive AskUserBehavior where
  | respond (res : Option AskResponse)
  | timedOut
deriving DecidableEq

/-- One event in the trace of a `send_ask_user` run, in program order. -/
inductive Ev where
  | askUserCall (timeout : Nat)
  | emitEv (event : String)
  | createMessage (author : String) (authorIsUser : Bool) (content : String)
deriving DecidableEq

/-- Outcome of a `send_ask_user` call: a normal return (with the response,
or `none` for Python `None`) or a propagated exception. -/
inductive AskResult where
  | ret (res : Option AskResponse)
  | raised (e : PyError)
deriving DecidableEq

/-- `ChainlitEmitter.send_ask_user`, embedded as a trace-producing function.

```
try:
    res = await self.ask_user({"msg": msg_dict, "spec": spec.to_dict()}, spec.timeout)
    await self.task_end()
    if self.client and res:
        if spec.type == "text":
            await self.client.create_message(res_msg)
        elif spec.type == "file":
            pass
    await self.clear_ask()
    return res
except TimeoutError as e:
    await self.send_ask_timeout()
    if raise_on_timeout:
        raise e
finally:
    await self.task_start()
```

`behavior` is what the `ask_user` capability does and `persistFails`
whether `client.create_message` raises when it is reached.  Each `emit`
step first resolves the corresponding property, so a missing capability
raises at exactly the point the Python code would. -/
def ChainlitEmitter.send_ask_user (e : ChainlitEmitter) (spec : AskSpec)
    (raise_on_timeout : Bool) (behavior : AskUserBehavior)
    (persistFails : Bool) : List Ev × AskResult :=
  let tryRes : List Ev × Except PyError (Option AskResponse) :=
    match e.ask_user with
    | .error err => ([], .error err)
    | .ok _ =>
      match behavior with
      | .timedOut => ([.askUserCall spec.timeout], .error .timeoutError)
      | .respond res =>
        match e.emit with
        | .error err => ([.askUserCall spec.timeout], .error err)
        | .ok _ =>
          let evs0 := [Ev.askUserCall spec.timeout, Ev.emitEv "task_end"]
          let clientVal : Option Capability :=
            match e.client with
            | .ok v => v
            | .error _ => none
          if clientVal.isSome && res.isSome then
            match spec.type, res with
            | .text, some r =>
              let evs1 := evs0 ++ [Ev.createMessage r.author true r.content]
              if persistFails then (evs1, .error .persistenceError)
              else (evs1 ++ [Ev.emitEv "clear_ask"], .ok res)
            | .text, none => (evs0 ++ [Ev.emitEv "clear_ask"], .ok res)
            | .file, _ => (evs0 ++ [Ev.emitEv "clear_ask"], .ok res)
          else
            (evs0 ++ [Ev.emitEv "clear_ask"], .ok res)
  let exRes : List Ev × Except PyError (Option AskResponse) :=
    match tryRes with
    | (evs, .error .timeoutError) =>
      match e.emit with
      | .error err => (evs, .error err)
      | .ok _ =>
        let evs1 := evs ++ [Ev.emitEv "ask_timeout"]
        if raise_on_timeout then (evs1, .error .timeoutError)
        else (evs1, .ok none)
    | other => other
  match e.emit with
  | .error err => (exRes.1, .raised err)
  | .ok _ =>
    match exRes.2 with
    | .ok r => (exRes.1 ++ [Ev.emitEv "task_start"], .ret r)
    | .error err => (exRes.1 ++ [Ev.emitEv "task_start"], .raised err)

/-- Count of the `emit` calls with a given event name in a trace. -/
def countEv (tr : List Ev) (event : String) : Nat :=
  tr.countP fun x =>
    match x with
    | Ev.emitEv s => s == event
    | _ => false

/-- A Python value that can sit in a frame's locals under the
`__chainlit_emitter__` marker, together with the values the code compares
against (`None`, booleans, numbers, strings): enough to embed Python
truthiness. -/
inductive PyVal where
  | emitterV (e : ChainlitEmitter)
  | noneV
  | falseV
  | trueV
  | intV (n : Int)
  | strV (s : String)
deriving DecidableEq

/-- Python truthiness of the embedded values (`if candidate:`). -/
def PyVal.truthy : PyVal → Bool
  | .emitterV _ => true
  | .noneV => false
  | .falseV => false
  | .trueV => true
  | .intV n => n != 0
  | .strV s => s != ""

/-- One stack frame, reduced to what `get_emitter` reads from it: the
value bound to `__chainlit_emitter__` in its locals, if any. -/
structure Frame where
  marker : Option PyVal
deriving DecidableEq

/-- `i[0].f_locals.get(attr)` for one frame: the bound value, or Python
`None` when the marker is absent from the frame's locals. -/
def Frame.candidate (f : Frame) : PyVal :=
  f.marker.getD .noneV

/-- The loop of `get_emitter`:
`emitter = None; for candidate in candidates: if candidate: emitter = candidate; break`. -/
def findFirstTruthy : List PyVal → PyVal
  | [] => .noneV
  | c :: rest => if c.truthy then c else findFirstTruthy rest

/-- `get_emitter`: scans `inspect.stack()` — ordered from the innermost
(current) frame to the outermost — and returns the first truthy
`__chainlit_emitter__` marker, or `None` when there is none. -/
def get_emitter (stack : List Frame) : PyVal :=
  findFirstTruthy (stack.map Frame.candidate)

/-- The current-emitter resolution as the spec words it: the same scan but
in "outermost-first search order".  Declared only to compare against
`get_emitter`, which follows the source. -/
def get_emitter_outermost_first (stack : List Frame) : PyVal :=
  findFirstTruthy (stack.reverse.map Frame.candidate)

/-- The external agent object, reduced to the shape `run_langchain_agent`
inspects: `hasattr(agent, "input_keys")` becomes `Option`, likewise for
`output_keys`. -/
structure Agent where
  input_keys : Option (List String)
  output_keys : Option (List String)
deriving DecidableEq

/-- The first positional argument the agent is invoked with: the
single-entry dict `{input_key: input_str}` or the bare string. -/
inductive CallInput where
  | wrapped (key : String) (value : String)
  | bare (value : String)
deriving DecidableEq

/-- Which callback handler is passed: `AsyncChainlitCallbackHandler` on the
async path, `ChainlitCallbackHandler` on the sync one. -/
inductive CallbackKind where
  | asyncCb
  | syncCb
deriving DecidableEq

/-- One invocation of the agent: its input and its `callbacks` list. -/
structure Invocation where
  input : CallInput
  callbacks : List CallbackKind
deriving DecidableEq

/-- The handler chosen for `use_async`. -/
def callbackFor (use_async : Bool) : CallbackKind :=
  if use_async then .asyncCb else .syncCb

/-- The `output_keys` tail of `run_langchain_agent`:
`output_key = agent.output_keys[0] if hasattr(agent, "output_keys") else None`,
where `[0]` on an empty list raises `IndexError`. -/
def agentOutputKey (agent : Agent) : Except PyError (Option String) :=
  match agent.output_keys with
  | some [] => .error .indexError
  | some (output_key :: _) => .ok (some output_key)
  | none => .ok none

/-- `run_langchain_agent`, parametrised by the agent call itself
(`acall` / `__call__` through `make_async`), which the embedding treats as
a pure function of the invocation; the function returns
`(raw_res, output_key)`. -/
def run_langchain_agent {α : Type} (agent : Agent) (input_str : String)
    (use_async : Bool) (call : Invocation → α) :
    Except PyError (α × Option String) :=
  match agent.input_keys with
  | some input_keys =>
    match input_keys with
    | [] => .error .indexError
    | input_key :: _ =>
      let raw_res := call ⟨.wrapped input_key input_str, [callbackFor use_async]⟩
      match agentOutputKey agent with
      | .error err => .error err
      | .ok output_key => .ok (raw_res, output_key)
  | none =>
    let raw_res := call ⟨.bare input_str, [callbackFor use_async]⟩
    match agentOutputKey agent with
    | .error err => .error err
    | .ok output_key => .ok (raw_res, output_key)

theorem countEv_nil (event : String) : countEv [] event = 0 := rfl

theorem countEv_cons_ask (t : Nat) (tr : List Ev) (event : String) :
    countEv (Ev.askUserCall t :: tr) event = countEv tr event := by
  simp [countEv, List.countP_cons]

theorem countEv_cons_create (a c : String) (b : Bool) (tr : List Ev)
    (event : String) :
    countEv (Ev.createMessage a b c :: tr) event = countEv tr event := by
  simp [countEv, List.countP_cons]

theorem countEv_cons_emit (s : String) (tr : List Ev) (event : String) :
    countEv (Ev.emitEv s :: tr) event =
      countEv tr event + (if s == event then 1 else 0) := by
  simp [countEv, List.countP_cons]

/-- C6: for every session lacking the `emit` capability, each of the ten
one-way notification methods raises the missing-capability `ValueError`,
surfaced directly to the caller. -/
theorem C6_missing_emit_all_notifications_error (e : ChainlitEmitter)
    (h : e.session.lookup "emit" = none)
    (msg_dict : List (String × String)) (count : Int) (id token : String) :
    e.send_message msg_dict = .error (.valueError "emit") ∧
    e.update_message msg_dict = .error (.valueError "emit") ∧
    e.delete_message msg_dict = .error (.valueError "emit") ∧
    e.send_ask_timeout = .error (.valueError "emit") ∧
    e.clear_ask = .error (.valueError "emit") ∧
    e.update_token_count count = .error (.valueError "emit") ∧
    e.task_start = .error (.valueError "emit") ∧
    e.task_end = .error (.valueError "emit") ∧
    e.stream_start msg_dict = .error (.valueError "emit") ∧
    e.send_token id token = .error (.valueError "emit") := by
  refine ⟨?_, ?_, ?_, ?_, ?_, ?_, ?_, ?_, ?_, ?_⟩ <;>
    simp [ChainlitEmitter.send_message, ChainlitEmitter.update_message,
      ChainlitEmitter.delete_message, ChainlitEmitter.send_ask_timeout,
      ChainlitEmitter.clear_ask, ChainlitEmitter.update_token_count,
      ChainlitEmitter.task_start, ChainlitEmitter.task_end,
      ChainlitEmitter.stream_start, ChainlitEmitter.send_token,
      ChainlitEmitter.emit, ChainlitEmitter.getSessionProperty, h]

theorem C6_missing_emit_witness :
    (⟨[]⟩ : ChainlitEmitter).send_message [] = .error (.valueError "emit") ∧
    (⟨[]⟩ : ChainlitEmitter).update_message [] = .error (.valueError "emit") ∧
    (⟨[]⟩ : ChainlitEmitter).delete_message [] = .error (.valueError "emit") ∧
    (⟨[]⟩ : ChainlitEmitter).send_ask_timeout = .error (.valueError "emit") ∧
    (⟨[]⟩ : ChainlitEmitter).clear_ask = .error (.valueError "emit") ∧
    (⟨[]⟩ : ChainlitEmitter).update_token_count 0 = .error (.valueError "emit") ∧
    (⟨[]⟩ : ChainlitEmitter).task_start = .error (.valueError "emit") ∧
    (⟨[]⟩ : ChainlitEmitter).task_end = .error (.valueError "emit") ∧
    (⟨[]⟩ : ChainlitEmitter).stream_start [] = .error (.valueError "emit") ∧
    (⟨[]⟩ : ChainlitEmitter).send_token "a" "b" = .error (.valueError "emit") :=
  C6_missing_emit_all_notifications_error ⟨[]⟩ rfl [] 0 "a" "b"

/-- C7: the `emit` and `ask_user` accessors return the stored capability
when present and raise the missing-capability `ValueError` when absent;
the `client` accessor returns the stored capability when present and
`None` (no error) when absent. -/
theorem C7_property_accessors (e : ChainlitEmitter) (c : Capability) :
    (e.session.lookup "emit" = some c → e.emit = .ok (some c)) ∧
    (e.session.lookup "emit" = none →
      e.emit = .error (.valueError "emit")) ∧
    (e.session.lookup "ask_user" = some c → e.ask_user = .ok (some c)) ∧
    (e.session.lookup "ask_user" = none →
      e.ask_user = .error (.valueError "ask_user")) ∧
    (e.session.lookup "client" = some c → e.client = .ok (some c)) ∧
    (e.session.lookup "client" = none → e.client = .ok none) := by
  refine ⟨?_, ?_, ?_, ?_, ?_, ?_⟩ <;> intro h <;>
    simp [ChainlitEmitter.emit, ChainlitEmitter.ask_user,
      ChainlitEmitter.client, ChainlitEmitter.getSessionProperty, h]

theorem C7_property_accessors_witness :
    (⟨[("emit", .cap 0)]⟩ : ChainlitEmitter).emit = .ok (some (.cap 0)) ∧
    (⟨[("emit", .cap 0)]⟩ : ChainlitEmitter).ask_user =
      .error (.valueError "ask_user") ∧
    (⟨[("emit", .cap 0)]⟩ : ChainlitEmitter).client = .ok none :=
  ⟨(C7_property_accessors ⟨[("emit", .cap 0)]⟩ (.cap 0)).1 rfl,
   (C7_property_accessors ⟨[("emit", .cap 0)]⟩ (.cap 0)).2.2.2.1 rfl,
   (C7_property_accessors ⟨[("emit", .cap 0)]⟩ (.cap 0)).2.2.2.2.2 rfl⟩

/-- C8: `run_langchain_agent` wraps the input string as a single-entry
mapping under the first declared input key when the agent declares input
keys, passes the bare string when it declares none, and pairs the raw
result with the first declared output key, or with an absent key when no
output keys are declared. -/
theorem C8_agent_adapter_shapes (agent : Agent) (input_str : String)
    (use_async : Bool) {α : Type} (call : Invocation → α) :
    (∀ k ks o os, agent.input_keys = some (k :: ks) →
      agent.output_keys = some (o :: os) →
      run_langchain_agent agent input_str use_async call =
        .ok (call ⟨.wrapped k input_str, [callbackFor use_async]⟩, some o)) ∧
    (∀ k ks, agent.input_keys = some (k :: ks) → agent.output_keys = none →
      run_langchain_agent agent input_str use_async call =
        .ok (call ⟨.wrapped k input_str, [callbackFor use_async]⟩, none)) ∧
    (∀ o os, agent.input_keys = none → agent.output_keys = some (o :: os) →
      run_langchain_agent agent input_str use_async call =
        .ok (call ⟨.bare input_str, [callbackFor use_async]⟩, some o)) ∧
    (agent.input_keys = none → agent.output_keys = none →
      run_langchain_agent agent input_str use_async call =
        .ok (call ⟨.bare input_str, [callbackFor use_async]⟩, none)) := by
  refine ⟨?_, ?_, ?_, ?_⟩ <;> intros <;>
    simp_all [run_langchain_agent, agentOutputKey]

theorem C8_agent_adapter_witness :
    run_langchain_agent ⟨some ["query"], some ["result"]⟩ "hello" true
        (fun i => i) =
      .ok (⟨.wrapped "query" "hello", [.asyncCb]⟩, some "result") :=
  (C8_agent_adapter_shapes ⟨some ["query"], some ["result"]⟩ "hello" true
    (fun i => i)).1 "query" [] "result" [] rfl rfl

/-- C9: a declared-but-empty `input_keys` (or `output_keys`) sequence makes
`run_langchain_agent` fail with the out-of-bounds `IndexError` from
`list[0]` instead of falling back to the unwrapped-string (or
absent-output-key) path; the bare-string fallback is taken only when the
attribute is entirely absent. -/
theorem C9_empty_key_lists_index_error (agent : Agent) (input_str : String)
    (use_async : Bool) {α : Type} (call : Invocation → α) :
    (agent.input_keys = some [] →
      run_langchain_agent agent input_str use_async call =
        .error .indexError) ∧
    (∀ k ks, agent.input_keys = some (k :: ks) →
      agent.output_keys = some [] →
      run_langchain_agent agent input_str use_async call =
        .error .indexError) ∧
    (agent.input_keys = none → agent.output_keys = some [] →
      run_langchain_agent agent input_str use_async call =
        .error .indexError) ∧
    (∀ v cbs okey,
      run_langchain_agent agent input_str use_async (fun i => i) =
        .ok (⟨.bare v, cbs⟩, okey) →
      agent.input_keys = none) := by
  refine ⟨?_, ?_, ?_, ?_⟩
  · intro h; simp [run_langchain_agent, h]
  · intro k ks h1 h2; simp [run_langchain_agent, agentOutputKey, h1, h2]
  · intro h1 h2; simp [run_langchain_agent, agentOutputKey, h1, h2]
  · intro v cbs okey h
    match hik : agent.input_keys with
    | none => rfl
    | some [] => simp [run_langchain_agent, hik] at h
    | some (k :: ks) =>
      simp [run_langchain_agent, agentOutputKey, hik] at h
      rcases hok : agent.output_keys with _ | ⟨_ | ⟨o, os⟩⟩ <;>
        simp [hok] at h

theorem findFirstTruthy_append_falsy (l1 l2 : List PyVal)
    (h : ∀ c ∈ l1, c.truthy = false) :
    findFirstTruthy (l1 ++ l2) = findFirstTruthy l2 := by
  induction l1 with
  | nil => rfl
  | cons c rest ih =>
    have hc : c.truthy = false := h c (List.mem_cons_self c rest)
    have hr : ∀ x ∈ rest, x.truthy = false :=
      fun x hx => h x (List.mem_cons_of_mem c hx)
    simp [findFirstTruthy, hc, ih hr]

theorem findFirstTruthy_all_falsy (l : List PyVal)
    (h : ∀ c ∈ l, c.truthy = false) : findFirstTruthy l = .noneV := by
  have := findFirstTruthy_append_falsy l [] h
  simpa using this

theorem findFirstTruthy_none_or_truthy (l : List PyVal) :
    findFirstTruthy l = .noneV ∨ (findFirstTruthy l).truthy = true := by
  induction l with
  | nil => exact Or.inl rfl
  | cons c rest ih =>
    by_cases hc : c.truthy = true
    · right; simp [findFirstTruthy, hc]
    · have hc' : c.truthy = false := by
        cases h : c.truthy with
        | false => rfl
        | true => exact absurd h hc
      simpa [findFirstTruthy, hc'] using ih

/-- C5 counterexample: on a stack carrying two truthy markers (innermost
frame first, as `inspect.stack()` yields them), `get_emitter` returns the
innermost marker, while a scan in the spec's "outermost-first search
order" would return the outermost one, and the two differ. -/
theorem C5_search_order_counterexample :
    get_emitter
        [⟨some (.emitterV ⟨[("emit", .cap 0)]⟩)⟩,
         ⟨some (.emitterV ⟨[("emit", .cap 1)]⟩)⟩] =
      .emitterV ⟨[("emit", .cap 0)]⟩ ∧
    get_emitter_outermost_first
        [⟨some (.emitterV ⟨[("emit", .cap 0)]⟩)⟩,
         ⟨some (.emitterV ⟨[("emit", .cap 1)]⟩)⟩] =
      .emitterV ⟨[("emit", .cap 1)]⟩ ∧
    (PyVal.emitterV ⟨[("emit", .cap 0)]⟩ ≠
      PyVal.emitterV ⟨[("emit", .cap 1)]⟩) := by
  refine ⟨rfl, rfl, ?_⟩; decide

/-- C5 (amended): `get_emitter` scans the active frames innermost-first
(the order `inspect.stack()` yields them) and returns the marker of the
nearest frame carrying a truthy marker; when no frame carries one it
returns `None`. -/
theorem C5_nearest_marker_wins (pre post stack : List Frame) (f : Frame)
    (h1 : ∀ g ∈ pre, (Frame.candidate g).truthy = false)
    (h2 : (Frame.candidate f).truthy = true)
    (h3 : ∀ g ∈ stack, (Frame.candidate g).truthy = false) :
    get_emitter (pre ++ f :: post) = f.candidate ∧
    get_emitter stack = .noneV := by
  constructor
  · have hmap : ∀ c ∈ pre.map Frame.candidate, c.truthy = false := by
      intro c hc
      rcases List.mem_map.mp hc with ⟨g, hg, rfl⟩
      exact h1 g hg
    calc get_emitter (pre ++ f :: post)
        = findFirstTruthy (pre.map Frame.candidate ++
            Frame.candidate f :: post.map Frame.candidate) := by
          simp [get_emitter]
      _ = findFirstTruthy (Frame.candidate f :: post.map Frame.candidate) :=
          findFirstTruthy_append_falsy _ _ hmap
      _ = f.candidate := by simp [findFirstTruthy, h2]
  · apply findFirstTruthy_all_falsy
    intro c hc
    rcases List.mem_map.mp hc with ⟨g, hg, rfl⟩
    exact h3 g hg

theorem C5_nearest_marker_wins_witness :
    get_emitter
        [⟨none⟩, ⟨some .noneV⟩,
         ⟨some (.emitterV ⟨[("emit", .cap 0)]⟩)⟩, ⟨none⟩] =
      .emitterV ⟨[("emit", .cap 0)]⟩ ∧
    get_emitter [⟨none⟩, ⟨some .noneV⟩] = .noneV := by
  have := C5_nearest_marker_wins
    [⟨none⟩, ⟨some .noneV⟩] [⟨none⟩] [⟨none⟩, ⟨some .noneV⟩]
    ⟨some (.emitterV ⟨[("emit", .cap 0)]⟩)⟩
    (by decide) (by decide) (by decide)
  simpa using this

/-- C10: frames binding the marker to a falsy value are skipped — with
falsy-bound frames nearest and a truthy marker in an outer frame, the
outer truthy marker is returned — and `get_emitter` never returns a falsy
value other than `None`. -/
theorem C10_falsy_markers_skipped (pre post : List Frame) (f : Frame)
    (h1 : ∀ g ∈ pre, ∃ v, g.marker = some v ∧ v.truthy = false)
    (h2 : (Frame.candidate f).truthy = true) :
    get_emitter (pre ++ f :: post) = f.candidate ∧
    ∀ s : List Frame, (get_emitter s).truthy = false →
      get_emitter s = .noneV := by
  constructor
  · have hmap : ∀ c ∈ pre.map Frame.candidate, c.truthy = false := by
      intro c hc
      rcases List.mem_map.mp hc with ⟨g, hg, rfl⟩
      rcases h1 g hg with ⟨v, hv, hvf⟩
      simpa [Frame.candidate, hv] using hvf
    have : get_emitter (pre ++ f :: post) =
        findFirstTruthy (Frame.candidate f :: post.map Frame.candidate) := by
      rw [get_emitter, List.map_append, List.map_cons]
      exact findFirstTruthy_append_falsy _ _ hmap
    rw [this]
    simp [findFirstTruthy, h2]
  · intro s hs
    rcases findFirstTruthy_none_or_truthy (s.map Frame.candidate) with h | h
    · simpa [get_emitter] using h
    · rw [get_emitter] at hs
      rw [hs] at h
      cases h

theorem C10_falsy_markers_skipped_witness :
    get_emitter
        [⟨some .noneV⟩, ⟨some .falseV⟩, ⟨some (.intV 0)⟩,
         ⟨some (.emitterV ⟨[("emit", .cap 7)]⟩)⟩] =
      .emitterV ⟨[("emit", .cap 7)]⟩ ∧
    get_emitter [⟨some .falseV⟩, ⟨some (.strV "")⟩] = .noneV := by
  have h := C10_falsy_markers_skipped
    [⟨some .noneV⟩, ⟨some .falseV⟩, ⟨some (.intV 0)⟩] []
    ⟨some (.emitterV ⟨[("emit", .cap 7)]⟩)⟩
    (by decide) (by decide)
  refine ⟨by simpa using h.1, h.2 [⟨some .falseV⟩, ⟨some (.strV "")⟩] (by decide)⟩

theorem send_ask_user_runs (e : ChainlitEmitter) (ty : SpecTy) (t : Nat)
    (rot : Bool) (behavior : AskUserBehavior) (pf : Bool)
    (ce ca : Capability)
    (hEmit : e.session.lookup "emit" = some ce)
    (hAsk : e.session.lookup "ask_user" = some ca) :
    e.send_ask_user ⟨ty, t⟩ rot behavior pf =
      match behavior with
      | .timedOut =>
        ([.askUserCall t, .emitEv "ask_timeout", .emitEv "task_start"],
         if rot then .raised .timeoutError else .ret none)
      | .respond res =>
        match e.session.lookup "client", res, ty with
        | some _, some r, .text =>
          if pf then
            ([.askUserCall t, .emitEv "task_end",
              .createMessage r.author true r.content, .emitEv "task_start"],
             .raised .persistenceError)
          else
            ([.askUserCall t, .emitEv "task_end",
              .createMessage r.author true r.content, .emitEv "clear_ask",
              .emitEv "task_start"],
             .ret res)
        | _, _, _ =>
          ([.askUserCall t, .emitEv "task_end", .emitEv "clear_ask",
            .emitEv "task_start"],
           .ret res) := by
  rcases behavior with res | _
  · rcases hc : e.session.lookup "client" with _ | c <;>
      rcases res with _ | r <;> cases ty <;> cases pf <;>
      simp [ChainlitEmitter.send_ask_user, ChainlitEmitter.emit,
        ChainlitEmitter.ask_user, ChainlitEmitter.client,
        ChainlitEmitter.getSessionProperty, hEmit, hAsk, hc]
  · cases rot <;>
      simp [ChainlitEmitter.send_ask_user, ChainlitEmitter.emit,
        ChainlitEmitter.ask_user, ChainlitEmitter.getSessionProperty,
        hEmit, hAsk]

/-- C1 counterexample: on a timeout outcome (capabilities present), the
`task_end` suspension event is emitted zero times, not exactly once,
although `task_start` is still emitted exactly once. -/
theorem C1_timeout_skips_task_end_counterexample :
    countEv ((⟨[("emit", .cap 0), ("ask_user", .cap 1)]⟩ :
        ChainlitEmitter).send_ask_user ⟨.text, 60⟩ false .timedOut
        false).1 "task_end" ≠ 1 ∧
    countEv ((⟨[("emit", .cap 0), ("ask_user", .cap 1)]⟩ :
        ChainlitEmitter).send_ask_user ⟨.text, 60⟩ false .timedOut
        false).1 "task_start" = 1 := by
  decide

/-- C1 (amended): whatever the exchange's outcome — response returned,
timeout, or error raised during persistence — `task_start` is emitted
exactly once (the `finally` path always resumes task-progress signaling);
`task_end` is emitted exactly once whenever `ask_user` returns a response
(including when persistence then fails), but zero times on timeout. -/
theorem C1_task_signaling (e : ChainlitEmitter) (spec : AskSpec)
    (rot : Bool) (behavior : AskUserBehavior) (pf : Bool)
    (ce ca : Capability)
    (hEmit : e.session.lookup "emit" = some ce)
    (hAsk : e.session.lookup "ask_user" = some ca) :
    countEv (e.send_ask_user spec rot behavior pf).1 "task_start" = 1 ∧
    countEv (e.send_ask_user spec rot behavior pf).1 "task_end" =
      (match behavior with
       | .respond _ => 1
       | .timedOut => 0) := by
  obtain ⟨ty, t⟩ := spec
  rw [send_ask_user_runs e ty t rot behavior pf ce ca hEmit hAsk]
  rcases behavior with res | _
  · rcases hc : e.session.lookup "client" with _ | c <;>
      rcases res with _ | r <;> cases ty <;> cases pf <;>
      simp [hc, countEv, List.countP_cons]
  · cases rot <;> simp [countEv, List.countP_cons]

theorem C1_task_signaling_witness :
    countEv ((⟨[("emit", .cap 0), ("ask_user", .cap 1)]⟩ :
        ChainlitEmitter).send_ask_user ⟨.text, 60⟩ false
        (.respond (some ⟨"user", "hi"⟩)) false).1 "task_start" = 1 ∧
    countEv ((⟨[("emit", .cap 0), ("ask_user", .cap 1)]⟩ :
        ChainlitEmitter).send_ask_user ⟨.text, 60⟩ false
        (.respond (some ⟨"user", "hi"⟩)) false).1 "task_end" = 1 :=
  C1_task_signaling ⟨[("emit", .cap 0), ("ask_user", .cap 1)]⟩
    ⟨.text, 60⟩ false (.respond (some ⟨"user", "hi"⟩)) false
    (.cap 0) (.cap 1) rfl rfl

/-- C2: when `ask_user` signals a timeout, exactly one `ask_timeout`
notification is emitted; the call returns `None` when `raise_on_timeout`
is false and propagates the timeout error when it is true. -/
theorem C2_timeout_notification_and_result (e : ChainlitEmitter)
    (spec : AskSpec) (rot pf : Bool) (ce ca : Capability)
    (hEmit : e.session.lookup "emit" = some ce)
    (hAsk : e.session.lookup "ask_user" = some ca) :
    countEv (e.send_ask_user spec rot .timedOut pf).1 "ask_timeout" = 1 ∧
    (e.send_ask_user spec rot .timedOut pf).2 =
      (if rot then .raised .timeoutError else .ret none) := by
  obtain ⟨ty, t⟩ := spec
  rw [send_ask_user_runs e ty t rot .timedOut pf ce ca hEmit hAsk]
  cases rot <;> simp [countEv, List.countP_cons]

theorem C2_timeout_notification_witness :
    countEv ((⟨[("emit", .cap 0), ("ask_user", .cap 1)]⟩ :
        ChainlitEmitter).send_ask_user ⟨.text, 60⟩ true .timedOut
        false).1 "ask_timeout" = 1 ∧
    ((⟨[("emit", .cap 0), ("ask_user", .cap 1)]⟩ :
        ChainlitEmitter).send_ask_user ⟨.text, 60⟩ true .timedOut
        false).2 = .raised .timeoutError :=
  C2_timeout_notification_and_result ⟨[("emit", .cap 0), ("ask_user", .cap 1)]⟩
    ⟨.text, 60⟩ true false (.cap 0) (.cap 1) rfl rfl

/-- C3: when `ask_user` returns a response before the timeout and no other
error occurs (the persistence call, if reached, succeeds), `send_ask_user`
returns exactly that response and emits `clear_ask` exactly once. -/
theorem C3_response_returned_clear_ask_once (e : ChainlitEmitter)
    (spec : AskSpec) (rot : Bool) (res : Option AskResponse)
    (ce ca : Capability)
    (hEmit : e.session.lookup "emit" = some ce)
    (hAsk : e.session.lookup "ask_user" = some ca) :
    (e.send_ask_user spec rot (.respond res) false).2 = .ret res ∧
    countEv (e.send_ask_user spec rot (.respond res) false).1
      "clear_ask" = 1 := by
  obtain ⟨ty, t⟩ := spec
  rw [send_ask_user_runs e ty t rot (.respond res) false ce ca hEmit hAsk]
  rcases hc : e.session.lookup "client" with _ | c <;>
    rcases res with _ | r <;> cases ty <;>
    simp [hc, countEv, List.countP_cons]

theorem C3_response_returned_witness :
    ((⟨[("emit", .cap 0), ("ask_user", .cap 1), ("client", .cap 2)]⟩ :
        ChainlitEmitter).send_ask_user ⟨.text, 60⟩ false
        (.respond (some ⟨"user", "hi"⟩)) false).2 =
      .ret (some ⟨"user", "hi"⟩) ∧
    countEv ((⟨[("emit", .cap 0), ("ask_user", .cap 1), ("client", .cap 2)]⟩ :
        ChainlitEmitter).send_ask_user ⟨.text, 60⟩ false
        (.respond (some ⟨"user", "hi"⟩)) false).1 "clear_ask" = 1 :=
  C3_response_returned_clear_ask_once
    ⟨[("emit", .cap 0), ("ask_user", .cap 1), ("client", .cap 2)]⟩
    ⟨.text, 60⟩ false (some ⟨"user", "hi"⟩) (.cap 0) (.cap 1) rfl rfl

/-- C4 counterexample: an outcome other than timeout — a failure raised by
`client.create_message` while persisting a textual response — also skips
the `clear_ask` emission, so timeout is not the single exception. -/
theorem C4_persistence_error_skips_clear_ask_counterexample :
    countEv ((⟨[("emit", .cap 0), ("ask_user", .cap 1), ("client", .cap 2)]⟩ :
        ChainlitEmitter).send_ask_user ⟨.text, 60⟩ false
        (.respond (some ⟨"user", "hi"⟩)) true).1 "clear_ask" = 0 ∧
    ((⟨[("emit", .cap 0), ("ask_user", .cap 1), ("client", .cap 2)]⟩ :
        ChainlitEmitter).send_ask_user ⟨.text, 60⟩ false
        (.respond (some ⟨"user", "hi"⟩)) true).2 =
      .raised .persistenceError := by
  decide

/-- C4 (amended): `clear_ask` is emitted exactly once when `ask_user`
returns a response and the persistence call — reached exactly when a
client is configured, the response is truthy, and the spec type is
`text` — does not fail; it is skipped both on timeout and when the
persistence call raises. -/
theorem C4_clear_ask_on_successful_response (e : ChainlitEmitter)
    (spec : AskSpec) (rot : Bool) (behavior : AskUserBehavior) (pf : Bool)
    (ce ca : Capability)
    (hEmit : e.session.lookup "emit" = some ce)
    (hAsk : e.session.lookup "ask_user" = some ca) :
    countEv (e.send_ask_user spec rot behavior pf).1 "clear_ask" =
      (match behavior with
       | .timedOut => 0
       | .respond res =>
         if (e.session.lookup "client").isSome && res.isSome &&
             (spec.type == SpecTy.text) && pf then 0 else 1) := by
  obtain ⟨ty, t⟩ := spec
  rw [send_ask_user_runs e ty t rot behavior pf ce ca hEmit hAsk]
  rcases behavior with res | _
  · rcases hc : e.session.lookup "client" with _ | c <;>
      rcases res with _ | r <;> cases ty <;> cases pf <;>
      simp [hc, countEv, List.countP_cons]
  · cases rot <;> simp [countEv, List.countP_cons]

theorem C4_clear_ask_witness :
    countEv ((⟨[("emit", .cap 0), ("ask_user", .cap 1), ("client", .cap 2)]⟩ :
        ChainlitEmitter).send_ask_user ⟨.file, 60⟩ false
        (.respond (some ⟨"user", "hi"⟩)) true).1 "clear_ask" = 1 := by
  have h := C4_clear_ask_on_successful_response
    ⟨[("emit", .cap 0), ("ask_user", .cap 1), ("client", .cap 2)]⟩
    ⟨.file, 60⟩ false (.respond (some ⟨"user", "hi"⟩)) true
    (.cap 0) (.cap 1) rfl rfl
  simpa using h

theorem C9_empty_key_lists_witness :
    run_langchain_agent (⟨some [], some ["result"]⟩ : Agent) "hello" false
      (fun i => i) = .error .indexError :=
  (C9_empty_key_lists_index_error ⟨some [], some ["result"]⟩ "hello" false
    (fun i => i)).1 rfl
